import Mathlib

/-!
Shallow embedding of the housing-share listing lifecycle of the Kre
repository (src/src/controllers/housingShare.controller.js,
src/src/routes/housingShare.routes.js, src/src/models/housingShare.model.js,
and the plain-listing controller in src/unnamed/part_000).

Modelling conventions:
* The record store (MongoDB via mongoose) is a list of `Share` documents; the
  object store (Cloudinary) is the list of live `publicId`s.  Both live in
  `St`.
* External effects are injected through `Env`: `uploadResult f` is the
  object-store outcome of uploading file `f` (`none` = the upload call
  throws), `destroyOk pid` is the outcome of `cloudinary.uploader.destroy`,
  `saveOk` is the outcome of record-store writes, `now` is `Date.now()`.
* Every store call, successful or not, is logged as an `Event` so that
  "zero store calls" and call-ordering properties are statements about the
  emitted trace.
* Fallible handlers return `Except AppError α` mirroring
  `throw new AppError(...)` / `next(error)`.
* Request bodies are modelled after `sanitize(req.body)` and after the
  boundary JSON-decoding of `preferences`: fields are typed, absent fields
  are `none`.  `mongo-sanitize` only strips `$`-prefixed keys, so a
  client-supplied `student` key survives into `req.body` and is modelled by
  `Body.student`.
* Mongo `ObjectId` syntactic validity (`mongoose.Types.ObjectId.isValid`) is
  a transport-level precondition; ids are modelled as `Nat` and all ids are
  syntactically valid.
-/

set_option autoImplicit false

namespace Kre

/-- One stored photo: `{url: result.secure_url, publicId: result.public_id}`. -/
structure MediaRef where
  url : String
  publicId : String
deriving DecidableEq, Repr

/-- The `preferences` subdocument of the HousingShare schema. -/
structure Prefs where
  gender : String
  studyField : Option String
  yearOfStudy : Option String
deriving DecidableEq, Repr

/-- A persisted HousingShare document (src/src/models/housingShare.model.js).
`student` is the owner reference.  `amenities` carries no constraints or
behaviour in the controller and is omitted. -/
structure Share where
  id : Nat
  student : Nat
  title : String
  description : String
  governorate : String
  city : String
  address : String
  university : String
  currentOccupants : Int
  totalCapacity : Int
  pricePerPerson : Int
  photos : List MediaRef
  preferences : Prefs
  status : String
  createdAt : Nat
  updatedAt : Nat
deriving DecidableEq, Repr

/-- A sanitized, type-normalized request body for create/update; absent
fields are `none`. -/
structure Body where
  title : Option String
  description : Option String
  governorate : Option String
  city : Option String
  address : Option String
  university : Option String
  currentOccupants : Option Int
  totalCapacity : Option Int
  pricePerPerson : Option Int
  preferences : Option Prefs
  status : Option String
  student : Option Nat
deriving DecidableEq, Repr

/-- Combined state of the two external stores: the record store holds the
listing documents, the object store holds the `publicId`s of live objects. -/
structure St where
  records : List Share
  objects : List String
deriving DecidableEq, Repr

/-- Failure injection for the external collaborators. -/
structure Env where
  uploadResult : String → Option MediaRef
  destroyOk : String → Bool
  saveOk : Bool
  now : Nat

/-- One call against an external store (emitted whether or not the call
succeeds). -/
inductive Event where
  | upload (file : String)
  | destroy (publicId : String)
  | findOne (id : Nat)
  | save (id : Nat)
  | removeRecord (id : Nat)
  | findQuery
  | countQuery
deriving DecidableEq, Repr

/-- `AppError(message, statusCode, errors)` from src/src/utils/errors. -/
structure AppError where
  message : String
  statusCode : Nat
  errors : List String
deriving DecidableEq, Repr

def notFoundErr : AppError := ⟨"Housing share not found or unauthorized", 404, []⟩

def invalidGenderErr : AppError := ⟨"Invalid gender preference", 400, []⟩

def photoProcessingErr : AppError := ⟨"Error processing photos", 500, []⟩

/-- Opaque error thrown by a failing `cloudinary.uploader.upload` call. -/
def uploadFailedErr : AppError := ⟨"Cloudinary upload failed", 500, []⟩

/-- Opaque error thrown by a failing `cloudinary.uploader.destroy` call. -/
def photoDestroyErr : AppError := ⟨"Cloudinary destroy failed", 500, []⟩

/-- Opaque error thrown by a failing mongoose write. -/
def storageErr : AppError := ⟨"Record store write failed", 500, []⟩

/-- Mongoose schema-validation error raised by `save()`. -/
def schemaValidationErr : AppError := ⟨"HousingShare schema validation failed", 500, []⟩

def validationErr (es : List String) : AppError := ⟨"Validation error", 400, es⟩

/-- The mongoose schema's governorate enum (24 entries). -/
def GOVERNORATES : List String :=
  ["Ariana", "Béja", "Ben Arous", "Bizerte", "Gabès", "Gafsa", "Jendouba",
   "Kairouan", "Kasserine", "Kébili", "Kef", "Mahdia", "Manouba", "Médenine",
   "Monastir", "Nabeul", "Sfax", "Sidi Bouzid", "Siliana", "Sousse",
   "Tataouine", "Tozeur", "Tunis", "Zaghouan"]

/-- The route-level governorate list.  The source literally writes
`['Ariana', 'Béja', 'Ben Arous', 'Bizerte', /* ...other governorates */]`,
i.e. a four-element array followed by a comment. -/
def ROUTE_GOVERNORATES : List String := ["Ariana", "Béja", "Ben Arous", "Bizerte"]

def GENDERS : List String := ["male", "female", "any"]

def STATUSES : List String := ["available", "full", "closed"]

/-- controllers lines 11-17 (identical helper in src/unnamed/part_000 lines
8-14).  Arguments are the `parseInt` results of the raw query values
(`none` = NaN, i.e. unparsable or absent); `parseInt(x) || d` sends both NaN
and 0 to the default. -/
def validatePagination (page limit : Option Int) : Int × Int :=
  let p0 : Int := match page with | none => 1 | some v => if v = 0 then 1 else v
  let l0 : Int := match limit with | none => 10 | some v => if v = 0 then 10 else v
  let p1 := if p0 < 1 then 1 else p0
  let l1 := if l0 < 1 || 100 < l0 then 10 else l0
  (p1, l1)

/-- controllers lines 19-27: sequential uploads; a successful upload makes the
object live immediately; a failing upload throws the raw error, with no
compensation for the objects already uploaded in the batch. -/
def handlePhotoUpload (env : Env) : List String → St → Except AppError (List MediaRef) × St × List Event
  | [], s => (Except.ok [], s, [])
  | f :: fs, s =>
      match env.uploadResult f with
      | none => (Except.error uploadFailedErr, s, [Event.upload f])
      | some ref =>
          let s1 : St := { s with objects := s.objects ++ [ref.publicId] }
          let rest := handlePhotoUpload env fs s1
          match rest.1 with
          | Except.ok refs => (Except.ok (ref :: refs), rest.2.1, Event.upload f :: rest.2.2)
          | Except.error e => (Except.error e, rest.2.1, Event.upload f :: rest.2.2)

/-- controllers lines 29-33: sequential destroys; the first failing destroy
throws, so the remaining photos of the batch are not attempted. -/
def deletePhotos (env : Env) : List MediaRef → St → Except AppError Unit × St × List Event
  | [], s => (Except.ok (), s, [])
  | p :: ps, s =>
      if env.destroyOk p.publicId then
        let s1 : St := { s with objects := s.objects.erase p.publicId }
        let rest := deletePhotos env ps s1
        (rest.1, rest.2.1, Event.destroy p.publicId :: rest.2.2)
      else
        (Except.error photoDestroyErr, s, [Event.destroy p.publicId])

/-- The media refs produced by the longest prefix of files whose uploads
succeed (what `handlePhotoUpload` has pushed when the first failure hits). -/
def successfulUploads (env : Env) : List String → List MediaRef
  | [] => []
  | f :: fs =>
      match env.uploadResult f with
      | none => []
      | some ref => ref :: successfulUploads env fs

def isSpaceChar (c : Char) : Bool := c = ' ' || c = '\t' || c = '\n' || c = '\r'

def dropSpaces : List Char → List Char
  | [] => []
  | c :: cs => if isSpaceChar c then dropSpaces cs else c :: cs

/-- Executable model of the `.trim()` sanitizer of express-validator
(whitespace stripped from both ends). -/
def jsTrim (s : String) : String := ⟨dropSpaces (dropSpaces s.data.reverse).reverse⟩

/-- A required string field with `.trim().notEmpty().isLength({max})`
(missing field = `undefined`, which fails `notEmpty`). -/
def reqStrErrs (v : Option String) (maxLen : Nat) (msg : String) : List String :=
  match v with
  | none => [msg]
  | some s => if jsTrim s = "" || decide (maxLen < (jsTrim s).length) then [msg] else []

/-- A required string field with `.trim().notEmpty()` only. -/
def reqNonEmptyErrs (v : Option String) (msg : String) : List String :=
  match v with
  | none => [msg]
  | some s => if jsTrim s = "" then [msg] else []

/-- An `.optional().trim().notEmpty()` field. -/
def optNonEmptyErrs (v : Option String) (msg : String) : List String :=
  match v with
  | none => []
  | some s => if jsTrim s = "" then [msg] else []

/-- An `.isInt({min})`-style numeric field (express-validator coerces the
multipart string; `none` = missing or non-numeric). -/
def intMinErrs (v : Option Int) (lo : Int) (msg : String) : List String :=
  match v with
  | none => [msg]
  | some n => if n < lo then [msg] else []

/-- `body('totalCapacity').isInt({min: 2}).custom(...)`: the custom rule
compares the candidate value against `req.body.currentOccupants`; when
`currentOccupants` is absent the JS comparison `value <= undefined` is false,
so the custom rule silently passes. -/
def totalCapacityErrs (b : Body) : List String :=
  intMinErrs b.totalCapacity 2 "Invalid value" ++
  (match b.totalCapacity, b.currentOccupants with
   | some tc, some co =>
       if tc ≤ co then ["Total capacity must be greater than current occupants"] else []
   | _, _ => [])

/-- `body('preferences.gender').isIn(['male','female','any'])`: a missing
`preferences` object yields `undefined`, which fails `isIn`. -/
def genderFieldErrs (b : Body) : List String :=
  match b.preferences with
  | none => ["Invalid gender preference"]
  | some p => if GENDERS.contains p.gender then [] else ["Invalid gender preference"]

/-- The `validateCreateShare` middleware list
(src/src/routes/housingShare.routes.js lines 41-85): all rules evaluated, all
violations collected. -/
def routeCreateErrors (b : Body) : List String :=
  reqStrErrs b.title 100 "Title must be between 1-100 characters" ++
  reqStrErrs b.description 1000 "Description must be between 1-1000 characters" ++
  (match b.governorate with
   | none => ["Invalid governorate"]
   | some g =>
       if jsTrim g = "" || !(ROUTE_GOVERNORATES.contains (jsTrim g)) then
         ["Invalid governorate"]
       else []) ++
  reqNonEmptyErrs b.city "Invalid value" ++
  reqNonEmptyErrs b.address "Invalid value" ++
  reqNonEmptyErrs b.university "Invalid value" ++
  intMinErrs b.currentOccupants 1 "Current occupants must be at least 1" ++
  totalCapacityErrs b ++
  intMinErrs b.pricePerPerson 0 "Price must be a positive number" ++
  genderFieldErrs b ++
  (match b.preferences with
   | none => []
   | some p =>
       optNonEmptyErrs p.yearOfStudy "Invalid value" ++
       optNonEmptyErrs p.studyField "Invalid value")

/-- Mongoose schema validation run by `save()`: `required` (non-empty for
strings), `min` bounds, and the `enum`s.  There is no cross-field rule and no
minimum on `pricePerPerson` in the schema. -/
def mongooseValid (r : Share) : Bool :=
  r.title != "" && r.description != "" &&
  GOVERNORATES.contains r.governorate &&
  r.city != "" && r.address != "" && r.university != "" &&
  decide (1 ≤ r.currentOccupants) && decide (2 ≤ r.totalCapacity) &&
  GENDERS.contains r.preferences.gender && STATUSES.contains r.status

/-- `new HousingShare({...req.body, student: req.user.userId, photos})`:
body fields spread first, then `student` is overwritten with the caller's
identity, so a body-supplied `student` never reaches the document; schema
defaults fill `status`/`createdAt`/`updatedAt`; absent required fields are
encoded by schema-invalid defaults (they fail `mongooseValid` just as a
missing field fails mongoose `required`). -/
def buildShare (caller : Nat) (b : Body) (photos : List MediaRef) (newId now : Nat) : Share :=
  { id := newId
    student := caller
    title := b.title.getD ""
    description := b.description.getD ""
    governorate := b.governorate.getD ""
    city := b.city.getD ""
    address := b.address.getD ""
    university := b.university.getD ""
    currentOccupants := b.currentOccupants.getD 0
    totalCapacity := b.totalCapacity.getD 0
    pricePerPerson := b.pricePerPerson.getD 0
    photos := photos
    preferences := b.preferences.getD ⟨"", none, none⟩
    status := b.status.getD "available"
    createdAt := now
    updatedAt := now }

/-- controller line 51: `['male','female','any'].includes(req.body.preferences?.gender)`
(a missing `preferences` gives `undefined`, which is not included). -/
def createGenderOk (b : Body) : Bool :=
  match b.preferences with
  | none => false
  | some p => GENDERS.contains p.gender

/-- controller lines 167-174: the gender check only runs when the update body
carries a `preferences` value. -/
def updateGenderOk (b : Body) : Bool :=
  match b.preferences with
  | none => true
  | some p => GENDERS.contains p.gender

/-- `HousingShare.findOne({_id: id, student: callerId})`. -/
def findShare (s : St) (id caller : Nat) : Option Share :=
  s.records.find? (fun r => r.id == id && r.student == caller)

/-- `Object.assign(share, req.body)`: body fields override the loaded
document; `photos` comes from the handler when files were uploaded
(`req.body.photos = newPhotos`). -/
def applyBody (r : Share) (b : Body) (photos : Option (List MediaRef)) : Share :=
  { id := r.id
    student := b.student.getD r.student
    title := b.title.getD r.title
    description := b.description.getD r.description
    governorate := b.governorate.getD r.governorate
    city := b.city.getD r.city
    address := b.address.getD r.address
    university := b.university.getD r.university
    currentOccupants := b.currentOccupants.getD r.currentOccupants
    totalCapacity := b.totalCapacity.getD r.totalCapacity
    pricePerPerson := b.pricePerPerson.getD r.pricePerPerson
    photos := photos.getD r.photos
    preferences := b.preferences.getD r.preferences
    status := b.status.getD r.status
    createdAt := r.createdAt
    updatedAt := r.updatedAt }

/-- `share.save()` on a loaded document replaces it in the store. -/
def replaceShare (rs : List Share) (r : Share) : List Share :=
  rs.map (fun x => if x.id == r.id then r else x)

/-- controllers/housingShare.controller.js `createHousingShare`
(lines 36-70): check the express-validator result, inline gender check,
upload photos when files are present, construct and save the document.  The
express-validator errors are recomputed here from the body exactly as the
middleware chain produced them. -/
def createHousingShare (env : Env) (caller : Nat) (b : Body) (files : List String) (newId : Nat) (s : St) :
    Except AppError Share × St × List Event :=
  let errs := routeCreateErrors b
  if errs ≠ [] then (Except.error (validationErr errs), s, [])
  else if !(createGenderOk b) then (Except.error invalidGenderErr, s, [])
  else
    let up :=
      if files.isEmpty then (Except.ok [], s, ([] : List Event))
      else handlePhotoUpload env files s
    match up.1 with
    | Except.error e => (Except.error e, up.2.1, up.2.2)
    | Except.ok photos =>
        let r := buildShare caller b photos newId env.now
        if !(mongooseValid r) then
          (Except.error schemaValidationErr, up.2.1, up.2.2 ++ [Event.save newId])
        else if env.saveOk then
          (Except.ok r, { records := up.2.1.records ++ [r], objects := up.2.1.objects },
            up.2.2 ++ [Event.save newId])
        else (Except.error storageErr, up.2.1, up.2.2 ++ [Event.save newId])

/-- controllers/housingShare.controller.js `updateHousingShare`
(lines 134-186): ownership-scoped `findOne`; when files are present the OLD
photos are destroyed first, then the new files are uploaded (either failure
becomes `Error processing photos`, 500); then the inline gender check; then
`Object.assign` + `save`.  Note that `validationResult(req)` is never
consulted by this handler. -/
def updateHousingShare (env : Env) (caller id : Nat) (b : Body) (files : List String) (s : St) :
    Except AppError Share × St × List Event :=
  match findShare s id caller with
  | none => (Except.error notFoundErr, s, [Event.findOne id])
  | some share =>
      let ph :=
        if files.isEmpty then
          ((Except.ok none : Except AppError (Option (List MediaRef))), s, ([] : List Event))
        else
          let del := deletePhotos env share.photos s
          match del.1 with
          | Except.error _ => (Except.error photoProcessingErr, del.2.1, del.2.2)
          | Except.ok _ =>
              let up := handlePhotoUpload env files del.2.1
              match up.1 with
              | Except.error _ => (Except.error photoProcessingErr, up.2.1, del.2.2 ++ up.2.2)
              | Except.ok refs => (Except.ok (some refs), up.2.1, del.2.2 ++ up.2.2)
      match ph.1 with
      | Except.error e => (Except.error e, ph.2.1, Event.findOne id :: ph.2.2)
      | Except.ok photosOpt =>
          if !(updateGenderOk b) then
            (Except.error invalidGenderErr, ph.2.1, Event.findOne id :: ph.2.2)
          else
            let merged := { applyBody share b photosOpt with updatedAt := env.now }
            if !(mongooseValid merged) then
              (Except.error schemaValidationErr, ph.2.1,
                Event.findOne id :: (ph.2.2 ++ [Event.save id]))
            else if env.saveOk then
              (Except.ok merged,
                { records := replaceShare ph.2.1.records merged, objects := ph.2.1.objects },
                Event.findOne id :: (ph.2.2 ++ [Event.save id]))
            else
              (Except.error storageErr, ph.2.1, Event.findOne id :: (ph.2.2 ++ [Event.save id]))

/-- The delete acknowledgment `{status: 'success', message: ...}`; the shape
carries no warning field. -/
structure DeleteResponse where
  status : String
  message : String
deriving DecidableEq, Repr

/-- controllers/housingShare.controller.js `deleteHousingShare`
(lines 188-224): ownership-scoped `findOne`; `deletePhotos` wrapped in a
try/catch that swallows any failure; then `share.deleteOne()` removes the
record; fixed success acknowledgment. -/
def deleteHousingShare (env : Env) (caller id : Nat) (s : St) :
    Except AppError DeleteResponse × St × List Event :=
  match findShare s id caller with
  | none => (Except.error notFoundErr, s, [Event.findOne id])
  | some share =>
      let del := deletePhotos env share.photos s
      let s1 := del.2.1
      if env.saveOk then
        (Except.ok ⟨"success", "Housing share deleted successfully"⟩,
          { records := s1.records.filter (fun x => x.id != share.id), objects := s1.objects },
          Event.findOne id :: (del.2.2 ++ [Event.removeRecord id]))
      else
        (Except.error storageErr, s1, Event.findOne id :: (del.2.2 ++ [Event.removeRecord id]))

/-- Sanitized, type-normalized list-query parameters (`none` = absent or
falsy; query values arrive as strings, so `"0"` for a price is truthy and is
modelled as `some 0`). -/
structure ListQuery where
  governorate : Option String
  status : Option String
  gender : Option String
  minPrice : Option Int
  maxPrice : Option Int
  page : Option Int
  limit : Option Int
deriving DecidableEq, Repr

/-- The mongo query built in `getHousingShares` (lines 79-87): exact matches
plus an inclusive `$gte`/`$lte` price range. -/
def matchesQuery (q : ListQuery) (r : Share) : Bool :=
  (match q.governorate with | none => true | some g => r.governorate == g) &&
  (match q.status with | none => true | some st => r.status == st) &&
  (match q.gender with | none => true | some g => r.preferences.gender == g) &&
  (match q.minPrice with | none => true | some m => decide (m ≤ r.pricePerPerson)) &&
  (match q.maxPrice with | none => true | some m => decide (r.pricePerPerson ≤ m))

def insertByCreatedAt (r : Share) : List Share → List Share
  | [] => [r]
  | x :: xs => if x.createdAt < r.createdAt then r :: x :: xs else x :: insertByCreatedAt r xs

/-- `.sort({createdAt: -1})`: descending by creation time. -/
def sortByCreatedAtDesc (l : List Share) : List Share :=
  l.foldr insertByCreatedAt []

/-- The list-response shape `{shares, total, pages, currentPage}`. -/
structure ListResponse where
  shares : List Share
  total : Nat
  pages : Nat
  currentPage : Int
deriving DecidableEq, Repr

/-- The optional query validators on `GET /housing-shares` (routes lines
186-214).  Note the route-level status enum is `['available','occupied',
'closed']` and the `maxPrice` custom rule flags `maxPrice <= minPrice`. -/
def routeListErrors (q : ListQuery) : List String :=
  (match q.governorate with
   | none => []
   | some g => if ROUTE_GOVERNORATES.contains g then [] else ["Invalid value"]) ++
  (match q.minPrice with
   | none => []
   | some m => if m < 0 then ["Invalid value"] else []) ++
  (match q.maxPrice with
   | none => []
   | some m =>
       (if m < 0 then ["Invalid value"] else []) ++
       (match q.minPrice with
        | none => []
        | some mn => if m ≤ mn then ["Max price must be greater than min price"] else [])) ++
  (match q.status with
   | none => []
   | some st => if ["available", "occupied", "closed"].contains st then [] else ["Invalid value"]) ++
  (match q.gender with
   | none => []
   | some g => if GENDERS.contains g then [] else ["Invalid value"]) ++
  (match q.page with
   | none => []
   | some p => if p < 1 then ["Invalid value"] else []) ++
  (match q.limit with
   | none => []
   | some l => if l < 1 || 100 < l then ["Invalid value"] else [])

/-- controllers/housingShare.controller.js `getHousingShares` (lines 72-108):
clamp pagination, build the filter, run the paged find and the count
(concurrently in the source; both read the same state here), respond with
`{shares, total, pages: ceil(total/limit), currentPage: page}`.  The handler
never consults `validationResult`, so recorded query-validation errors do not
abort it. -/
def getHousingShares (q : ListQuery) (s : St) : ListResponse × List Event :=
  let pl := validatePagination q.page q.limit
  let matched := s.records.filter (matchesQuery q)
  let total := matched.length
  let shares := ((sortByCreatedAtDesc matched).drop ((pl.1 - 1).toNat * pl.2.toNat)).take pl.2.toNat
  (⟨shares, total, (total + pl.2.toNat - 1) / pl.2.toNat, pl.1⟩, [Event.findQuery, Event.countQuery])

/-- True when no object-store destroy happens before the record removal in a
trace (the ordering the spec prescribes for `delete`). -/
def noDestroyBeforeRemoval : List Event → Bool
  | [] => true
  | Event.destroy _ :: _ => false
  | Event.removeRecord _ :: _ => true
  | _ :: tr => noDestroyBeforeRemoval tr

/-- True when a trace consists only of object-store destroy calls. -/
def allDestroys : List Event → Bool
  | [] => true
  | Event.destroy _ :: tr => allDestroys tr
  | _ :: _ => false

/-- True when a trace contains at least one object-store destroy call. -/
def hasDestroy : List Event → Bool
  | [] => false
  | Event.destroy _ :: _ => true
  | _ :: tr => hasDestroy tr

/-- A photo already attached to the fixture listing. -/
def photo0 : MediaRef := ⟨"https://cdn.example/p0", "p0"⟩

/-- The media ref resulting from uploading file `f1`. -/
def ref1 : MediaRef := ⟨"https://cdn.example/p1", "p1"⟩

/-- A schema-valid listing owned by student 7, with one attached photo. -/
def share1 : Share :=
  { id := 1
    student := 7
    title := "Room"
    description := "Nice room"
    governorate := "Ariana"
    city := "Ariana"
    address := "Street 1"
    university := "UTM"
    currentOccupants := 2
    totalCapacity := 4
    pricePerPerson := 300
    photos := [photo0]
    preferences := ⟨"any", none, none⟩
    status := "available"
    createdAt := 5
    updatedAt := 5 }

/-- Empty stores. -/
def st0 : St := ⟨[], []⟩

/-- Stores holding `share1` and its live photo object. -/
def st1 : St := ⟨[share1], ["p0"]⟩

/-- Environment where every external call succeeds (`f1` is the only file the
fixture scenarios upload). -/
def envAllOk : Env :=
  { uploadResult := fun f => if f = "f1" then some ref1 else none
    destroyOk := fun _ => true
    saveOk := true
    now := 9 }

/-- Environment where uploading `f1` succeeds and uploading `f2` fails. -/
def envUp1Fail2 : Env :=
  { uploadResult := fun f => if f = "f1" then some ref1 else none
    destroyOk := fun _ => true
    saveOk := true
    now := 9 }

/-- Environment where every object-store call succeeds but the record-store
write fails. -/
def envSaveFail : Env :=
  { uploadResult := fun f => if f = "f1" then some ref1 else none
    destroyOk := fun _ => true
    saveOk := false
    now := 9 }

/-- Environment where every object-store destroy fails. -/
def envDestroyFail : Env :=
  { uploadResult := fun f => if f = "f1" then some ref1 else none
    destroyOk := fun _ => false
    saveOk := true
    now := 9 }

/-- A body with every field absent. -/
def emptyBody : Body :=
  ⟨none, none, none, none, none, none, none, none, none, none, none, none⟩

/-- A fully valid create body that also (maliciously) supplies `student: 99`. -/
def validBody : Body :=
  { title := some "Room"
    description := some "Nice room"
    governorate := some "Ariana"
    city := some "Ariana"
    address := some "Street 1"
    university := some "UTM"
    currentOccupants := some 2
    totalCapacity := some 4
    pricePerPerson := some 300
    preferences := some ⟨"any", none, none⟩
    status := none
    student := some 99 }

/-- An update body supplying only `currentOccupants`. -/
def occOnly (co : Int) : Body :=
  ⟨none, none, none, none, none, none, some co, none, none, none, none, none⟩

/-- An update body supplying only `student` (mass-assignment of the owner). -/
def studentOnlyBody : Body :=
  ⟨none, none, none, none, none, none, none, none, none, none, none, some 99⟩

/-- An update body supplying only an invalid gender preference. -/
def badGenderBody : Body :=
  ⟨none, none, none, none, none, none, none, none, none, some ⟨"robot", none, none⟩, none, none⟩

/-- A create body violating the capacity ordering (`totalCapacity = 2 ≤ 2 =
currentOccupants`). -/
def capViolBody : Body :=
  { title := some "Room"
    description := some "Nice room"
    governorate := some "Ariana"
    city := some "Ariana"
    address := some "Street 1"
    university := some "UTM"
    currentOccupants := some 2
    totalCapacity := some 2
    pricePerPerson := some 300
    preferences := some ⟨"any", none, none⟩
    status := none
    student := none }

/-- The inverted-range list query of the spec's §8 scenario. -/
def invertedQuery : ListQuery := ⟨none, none, none, some 100, some 50, none, none⟩

/-- A list query with an out-of-range page (0) and an in-range limit (10). -/
def qMixedA : ListQuery := ⟨none, none, none, none, none, some 0, some 10⟩

/-- A list query with an in-range page (3) and an out-of-range limit (101). -/
def qMixedB : ListQuery := ⟨none, none, none, none, none, some 3, some 101⟩

/-! Helper lemmas about the media orchestration primitives. -/

theorem deletePhotos_records (env : Env) : ∀ (ps : List MediaRef) (s : St),
    (deletePhotos env ps s).2.1.records = s.records := by
  intro ps
  induction ps with
  | nil => intro s; rfl
  | cons p ps ih =>
      intro s
      cases h : env.destroyOk p.publicId with
      | false => simp [deletePhotos, h]
      | true => simp [deletePhotos, h, ih]

theorem deletePhotos_trace_destroys (env : Env) : ∀ (ps : List MediaRef) (s : St),
    allDestroys (deletePhotos env ps s).2.2 = true := by
  intro ps
  induction ps with
  | nil => intro s; rfl
  | cons p ps ih =>
      intro s
      cases h : env.destroyOk p.publicId with
      | false => simp [deletePhotos, h, allDestroys]
      | true => simp [deletePhotos, h, allDestroys, ih]

theorem deletePhotos_all_ok (env : Env) : ∀ (ps : List MediaRef) (s : St),
    (∀ p ∈ ps, env.destroyOk p.publicId = true) →
    deletePhotos env ps s
      = (Except.ok (), ⟨s.records, ps.foldl (fun o p => o.erase p.publicId) s.objects⟩,
         ps.map (fun p => Event.destroy p.publicId)) := by
  intro ps
  induction ps with
  | nil => intro s _; rfl
  | cons p ps ih =>
      intro s h
      have hp : env.destroyOk p.publicId = true := h p (by simp)
      have hrest := ih { s with objects := s.objects.erase p.publicId }
        (fun q hq => h q (by simp [hq]))
      simp [deletePhotos, hp, hrest]

theorem handlePhotoUpload_records (env : Env) : ∀ (fs : List String) (s : St),
    (handlePhotoUpload env fs s).2.1.records = s.records := by
  intro fs
  induction fs with
  | nil => intro s; rfl
  | cons f fs ih =>
      intro s
      cases h : env.uploadResult f with
      | none => simp [handlePhotoUpload, h]
      | some ref =>
          have := ih { s with objects := s.objects ++ [ref.publicId] }
          simp only [handlePhotoUpload, h]
          split <;> simpa using this

theorem handlePhotoUpload_objects (env : Env) : ∀ (fs : List String) (s : St),
    (handlePhotoUpload env fs s).2.1.objects
      = s.objects ++ (successfulUploads env fs).map MediaRef.publicId := by
  intro fs
  induction fs with
  | nil => intro s; simp [handlePhotoUpload, successfulUploads]
  | cons f fs ih =>
      intro s
      cases h : env.uploadResult f with
      | none => simp [handlePhotoUpload, h, successfulUploads]
      | some ref =>
          have := ih { s with objects := s.objects ++ [ref.publicId] }
          simp only [handlePhotoUpload, h]
          split <;> simp_all [successfulUploads]

theorem handlePhotoUpload_no_destroy (env : Env) : ∀ (fs : List String) (s : St),
    hasDestroy (handlePhotoUpload env fs s).2.2 = false := by
  intro fs
  induction fs with
  | nil => intro s; rfl
  | cons f fs ih =>
      intro s
      cases h : env.uploadResult f with
      | none => simp [handlePhotoUpload, h, hasDestroy]
      | some ref =>
          have := ih { s with objects := s.objects ++ [ref.publicId] }
          simp only [handlePhotoUpload, h]
          split <;> simp_all [hasDestroy]

theorem handlePhotoUpload_all_ok (env : Env) : ∀ (fs : List String) (s : St),
    (∀ f ∈ fs, (env.uploadResult f).isSome = true) →
    handlePhotoUpload env fs s
      = (Except.ok (successfulUploads env fs),
         ⟨s.records, s.objects ++ (successfulUploads env fs).map MediaRef.publicId⟩,
         fs.map Event.upload) := by
  intro fs
  induction fs with
  | nil => intro s _; simp [handlePhotoUpload, successfulUploads]
  | cons f fs ih =>
      intro s h
      have hf := h f (by simp)
      obtain ⟨ref, href⟩ := Option.isSome_iff_exists.mp hf
      have hrest := ih { s with objects := s.objects ++ [ref.publicId] }
        (fun g hg => h g (by simp [hg]))
      simp [handlePhotoUpload, href, hrest, successfulUploads]

theorem findShare_props {s : St} {id caller : Nat} {share : Share}
    (h : findShare s id caller = some share) : share.id = id ∧ share.student = caller := by
  have := List.find?_some h
  simpa [Bool.and_eq_true, beq_iff_eq] using this

theorem findShare_eq_none {s : St} {id caller : Nat}
    (h : ∀ r ∈ s.records, r.id = id → r.student ≠ caller) :
    findShare s id caller = none := by
  unfold findShare
  rw [List.find?_eq_none]
  intro r hr
  simp only [Bool.and_eq_true, beq_iff_eq, not_and]
  exact fun hid => h r hr hid

/-! Claim theorems. -/

/-- C1 (counterexample): attach of 2 files where upload 2 fails.  The claim
says every object already uploaded in the batch is deleted before the
operation returns, leaving the object store exactly as before the call.  In
the code (`handlePhotoUpload`, controller lines 19-27) there is no rollback:
starting from an empty object store, the batch returns the raw upload error
while the object of the first upload (`p1`) survives as an orphan. -/
theorem C1_cex :
    (handlePhotoUpload envUp1Fail2 ["f1", "f2"] st0).1 = Except.error uploadFailedErr ∧
    st0.objects = [] ∧
    (handlePhotoUpload envUp1Fail2 ["f1", "f2"] st0).2.1.objects = ["p1"] :=
  ⟨rfl, rfl, rfl⟩

/-- C1 (amended): when the upload of file k of N fails, `handlePhotoUpload`
surfaces that failure, but performs NO rollback: the objects of the k-1
already-successful uploads remain live in the object store (final object
store = prior objects plus the successfully uploaded prefix), the record
store is untouched, and no delete call is ever issued by the batch. -/
theorem C1_amended (env : Env) (files : List String) (s : St) (e : AppError)
    (h : (handlePhotoUpload env files s).1 = Except.error e) :
    (handlePhotoUpload env files s).1 = Except.error e ∧
    (handlePhotoUpload env files s).2.1.objects
      = s.objects ++ (successfulUploads env files).map MediaRef.publicId ∧
    (handlePhotoUpload env files s).2.1.records = s.records ∧
    hasDestroy (handlePhotoUpload env files s).2.2 = false :=
  ⟨h, handlePhotoUpload_objects env files s, handlePhotoUpload_records env files s,
   handlePhotoUpload_no_destroy env files s⟩

/-- C1 (witness): the amended statement instantiated at the two-file batch
whose second upload fails. -/
theorem C1_amended_w :
    (handlePhotoUpload envUp1Fail2 ["f1", "f2"] st0).1 = Except.error uploadFailedErr ∧
    (handlePhotoUpload envUp1Fail2 ["f1", "f2"] st0).2.1.objects
      = st0.objects ++ (successfulUploads envUp1Fail2 ["f1", "f2"]).map MediaRef.publicId ∧
    (handlePhotoUpload envUp1Fail2 ["f1", "f2"] st0).2.1.records = st0.records ∧
    hasDestroy (handlePhotoUpload envUp1Fail2 ["f1", "f2"] st0).2.2 = false :=
  C1_amended envUp1Fail2 ["f1", "f2"] st0 uploadFailedErr rfl

/-- C4 (counterexample): an update whose input fails invariant validation (an
invalid `preferences.gender`) while supplying a file.  The claim says every
such operation fails having performed zero Record Store and zero Object
Store calls.  In the code the update handler destroys the old photos and
uploads the new one BEFORE its inline gender check, so the 400 error is
reached only after object-store calls have mutated the object store. -/
theorem C4_cex :
    (updateHousingShare envAllOk 7 1 badGenderBody ["f1"] st1).1 = Except.error invalidGenderErr ∧
    (updateHousingShare envAllOk 7 1 badGenderBody ["f1"] st1).2.2
      = [Event.findOne 1, Event.destroy "p0", Event.upload "f1"] ∧
    (updateHousingShare envAllOk 7 1 badGenderBody ["f1"] st1).2.1.objects = ["p1"] :=
  ⟨rfl, rfl, rfl⟩

/-- C4 (amended): for CREATE the claim holds: any body that fails the
`validateCreateShare` rules (in particular `totalCapacity <=
currentOccupants`) makes `createHousingShare` fail with the 400
"Validation error" carrying the full violation list, with the state
unchanged and an empty call trace (zero Record Store and zero Object Store
calls).  For UPDATE the claim fails: the handler never consults
`validationResult`, and its only inline check (gender) runs after the photo
operations (see the counterexample). -/
theorem C4_amended (env : Env) (caller : Nat) (b : Body) (files : List String) (newId : Nat)
    (s : St) (h : routeCreateErrors b ≠ []) :
    createHousingShare env caller b files newId s
      = (Except.error (validationErr (routeCreateErrors b)), s, []) := by
  unfold createHousingShare
  simp [h]

/-- C4 (witness): the amended statement instantiated at a create body with
`totalCapacity = 2 <= 2 = currentOccupants`. -/
theorem C4_amended_w :
    createHousingShare envAllOk 7 capViolBody ["f1"] 2 st0
      = (Except.error (validationErr (routeCreateErrors capViolBody)), st0, []) :=
  C4_amended envAllOk 7 capViolBody ["f1"] 2 st0 (by decide)

/-- C7 (confirmed): for any caller `c` and listing id, when the listing is
absent from the record store or exists with an owner different from `c`,
both `updateHousingShare` and `deleteHousingShare` take the very same path:
the ownership-scoped `findOne({_id: id, student: c})` comes back empty and
both return the identical 404 `AppError` ("Housing share not found or
unauthorized") with the state unchanged and only the lookup in the trace —
a non-owner cannot distinguish a foreign listing from a nonexistent one. -/
theorem C7_nonowner_indistinguishable (env : Env) (caller id : Nat) (b : Body)
    (files : List String) (s : St)
    (h : ∀ r ∈ s.records, r.id = id → r.student ≠ caller) :
    (updateHousingShare env caller id b files s).1 = Except.error notFoundErr ∧
    (deleteHousingShare env caller id s).1 = Except.error notFoundErr ∧
    (updateHousingShare env caller id b files s).2.1 = s ∧
    (deleteHousingShare env caller id s).2.1 = s ∧
    (updateHousingShare env caller id b files s).2.2 = [Event.findOne id] ∧
    (deleteHousingShare env caller id s).2.2 = [Event.findOne id] := by
  have hn := findShare_eq_none h
  unfold updateHousingShare deleteHousingShare
  rw [hn]
  exact ⟨rfl, rfl, rfl, rfl, rfl, rfl⟩

/-- C7 (witness): caller 8 against the listing owned by student 7. -/
theorem C7_w :
    (updateHousingShare envAllOk 8 1 emptyBody [] st1).1 = Except.error notFoundErr ∧
    (deleteHousingShare envAllOk 8 1 st1).1 = Except.error notFoundErr ∧
    (updateHousingShare envAllOk 8 1 emptyBody [] st1).2.1 = st1 ∧
    (deleteHousingShare envAllOk 8 1 st1).2.1 = st1 ∧
    (updateHousingShare envAllOk 8 1 emptyBody [] st1).2.2 = [Event.findOne 1] ∧
    (deleteHousingShare envAllOk 8 1 st1).2.2 = [Event.findOne 1] :=
  C7_nonowner_indistinguishable envAllOk 8 1 emptyBody [] st1 (by decide)

/-- C8 (confirmed): a list request with the inverted price range `minPrice =
100, maxPrice = 50` succeeds and yields zero matching items over any store
state: the handler builds the unsatisfiable conjunction `pricePerPerson >=
100 && pricePerPerson <= 50`.  The route's `maxPrice` custom validator does
record an error (third conjunct), but `getHousingShares` never consults
`validationResult`, so no error is surfaced. -/
theorem C8_inverted_range (s : St) :
    (getHousingShares invertedQuery s).1.shares = [] ∧
    (getHousingShares invertedQuery s).1.total = 0 ∧
    (routeListErrors invertedQuery).isEmpty = false := by
  have hfilter : s.records.filter (matchesQuery invertedQuery) = [] := by
    rw [List.filter_eq_nil_iff]
    intro r _
    simp [matchesQuery, invertedQuery]
    omega
  refine ⟨?_, ?_, by decide⟩
  · simp [getHousingShares, hfilter, sortByCreatedAtDesc]
  · simp [getHousingShares, hfilter]

/-- C9 (confirmed): for every list request the pagination inputs are clamped
independently before the query runs — a `page` that is unparsable (`parseInt`
gives NaN) or below 1 becomes 1 whatever the limit is, a `limit` that is
unparsable or outside [1,100] becomes the default 10 whatever the page is,
in-range values are kept unchanged — and the response's `currentPage` always
equals the clamped page. -/
theorem C9_pagination_clamped (q : ListQuery) (s : St) :
    (getHousingShares q s).1.currentPage = (validatePagination q.page q.limit).1 ∧
    ((q.page = none ∨ ∃ v, q.page = some v ∧ v < 1) →
      (validatePagination q.page q.limit).1 = 1) ∧
    ((q.limit = none ∨ ∃ v, q.limit = some v ∧ (v < 1 ∨ 100 < v)) →
      (validatePagination q.page q.limit).2 = 10) ∧
    (∀ v, q.page = some v → 1 ≤ v → (validatePagination q.page q.limit).1 = v) ∧
    (∀ v, q.limit = some v → 1 ≤ v → v ≤ 100 → (validatePagination q.page q.limit).2 = v) := by
  refine ⟨by simp [getHousingShares], ?_, ?_, ?_, ?_⟩
  · rintro (hp | ⟨v, hv, hvlt⟩)
    · simp [validatePagination, hp]
    · simp [validatePagination, hv]
      split_ifs <;> omega
  · rintro (hl | ⟨v, hv, hvout⟩)
    · simp [validatePagination, hl]
    · simp [validatePagination, hv]
      split_ifs <;> omega
  · intro v hv hge
    simp [validatePagination, hv]
    split_ifs <;> omega
  · intro v hv hge hle
    simp [validatePagination, hv]
    split_ifs <;> omega

/-- C2 (counterexample): update of the listing (one attached photo `p0`) with
one new file, record commit forced to fail.  The claim says the new media is
attached before the commit, the prior media is released only after a
successful commit, and a failed commit rolls the new media back leaving
prior media untouched.  In the code the prior photo is destroyed FIRST
(before any upload and before the commit — see the trace), and after the
failed commit the object store holds exactly the NEW object: the prior media
is gone and the new media was not rolled back. -/
theorem C2_cex :
    (updateHousingShare envSaveFail 7 1 emptyBody ["f1"] st1).1 = Except.error storageErr ∧
    st1.objects = ["p0"] ∧
    (updateHousingShare envSaveFail 7 1 emptyBody ["f1"] st1).2.1.objects = ["p1"] ∧
    (updateHousingShare envSaveFail 7 1 emptyBody ["f1"] st1).2.2
      = [Event.findOne 1, Event.destroy "p0", Event.upload "f1", Event.save 1] :=
  ⟨rfl, rfl, rfl, rfl⟩

/-- C2 (amended): when an update supplies new files, the handler RELEASES the
previously attached media first, then uploads the new set, then attempts the
record commit; if the commit fails, the prior media has already been deleted
from the object store and the newly uploaded media is left live (no
rollback), while the record store keeps the prior record.  (Trace order:
destroys, then uploads, then the save.) -/
theorem C2_amended (env : Env) (caller id : Nat) (b : Body) (files : List String) (s : St)
    (share : Share)
    (hf : findShare s id caller = some share)
    (hfiles : files ≠ [])
    (hdel : ∀ p ∈ share.photos, env.destroyOk p.publicId = true)
    (hup : ∀ f ∈ files, (env.uploadResult f).isSome = true)
    (hpref : b.preferences = none)
    (hm : mongooseValid
        { applyBody share b (some (successfulUploads env files)) with updatedAt := env.now }
        = true)
    (hsave : env.saveOk = false) :
    (updateHousingShare env caller id b files s).1 = Except.error storageErr ∧
    (updateHousingShare env caller id b files s).2.1.records = s.records ∧
    (updateHousingShare env caller id b files s).2.1.objects
      = (share.photos.foldl (fun o p => o.erase p.publicId) s.objects)
        ++ (successfulUploads env files).map MediaRef.publicId ∧
    (updateHousingShare env caller id b files s).2.2
      = Event.findOne id :: (share.photos.map (fun p => Event.destroy p.publicId)
          ++ files.map Event.upload ++ [Event.save id]) := by
  have hemp : files.isEmpty = false := by
    cases files with
    | nil => exact absurd rfl hfiles
    | cons f fs => rfl
  have hdelEq := deletePhotos_all_ok env share.photos s hdel
  have hupEq := handlePhotoUpload_all_ok env files
    ⟨s.records, share.photos.foldl (fun o p => o.erase p.publicId) s.objects⟩ hup
  have hgender : updateGenderOk b = true := by simp [updateGenderOk, hpref]
  unfold updateHousingShare
  rw [hf]
  refine ⟨?_, ?_, ?_, ?_⟩ <;>
    simp [hemp, hdelEq, hupEq, hgender, hm, hsave]

/-- C2 (witness): the amended statement instantiated at the fixture listing
with one prior photo and one new file, commit failing. -/
theorem C2_amended_w :
    (updateHousingShare envSaveFail 7 1 emptyBody ["f1"] st1).1 = Except.error storageErr ∧
    (updateHousingShare envSaveFail 7 1 emptyBody ["f1"] st1).2.1.records = st1.records ∧
    (updateHousingShare envSaveFail 7 1 emptyBody ["f1"] st1).2.1.objects
      = (share1.photos.foldl (fun o p => o.erase p.publicId) st1.objects)
        ++ (successfulUploads envSaveFail ["f1"]).map MediaRef.publicId ∧
    (updateHousingShare envSaveFail 7 1 emptyBody ["f1"] st1).2.2
      = Event.findOne 1 :: (share1.photos.map (fun p => Event.destroy p.publicId)
          ++ ["f1"].map Event.upload ++ [Event.save 1]) :=
  C2_amended envSaveFail 7 1 emptyBody ["f1"] st1 share1 rfl (by decide)
    (fun p _ => rfl) (by decide) rfl (by decide) rfl

/-- C3 (counterexample): the stored listing has `totalCapacity = 4`; an
update supplying only `currentOccupants = 5` violates the merged-view
capacity ordering, yet the update SUCCEEDS and persists the violating
record — no `ValidationError` is raised (the update handler never consults
`validationResult`, and mongoose has no cross-field rule). -/
theorem C3_cex :
    share1.totalCapacity = 4 ∧
    (updateHousingShare envAllOk 7 1 (occOnly 5) [] st1).1
      = Except.ok { share1 with currentOccupants := 5, updatedAt := 9 } ∧
    (updateHousingShare envAllOk 7 1 (occOnly 5) [] st1).2.1.records
      = [{ share1 with currentOccupants := 5, updatedAt := 9 }] :=
  ⟨rfl, rfl, rfl⟩

/-- C3 (amended): an update supplying only `currentOccupants` is NOT checked
against the stored `totalCapacity`: for any stored listing and any
`currentOccupants >= 1` that violates the capacity ordering, the update
succeeds and persists the merged record (which then violates
`totalCapacity > currentOccupants`). -/
theorem C3_amended (env : Env) (caller id : Nat) (co : Int) (s : St) (share : Share)
    (hf : findShare s id caller = some share)
    (hviol : share.totalCapacity ≤ co)
    (hco : 1 ≤ co)
    (hm : mongooseValid share = true)
    (hsave : env.saveOk = true) :
    (updateHousingShare env caller id (occOnly co) [] s).1
      = Except.ok { share with currentOccupants := co, updatedAt := env.now } ∧
    ¬ ({ share with currentOccupants := co, updatedAt := env.now }).totalCapacity
        > ({ share with currentOccupants := co, updatedAt := env.now }).currentOccupants ∧
    (updateHousingShare env caller id (occOnly co) [] s).2.1.records
      = replaceShare s.records { share with currentOccupants := co, updatedAt := env.now } := by
  have hmerged : mongooseValid { share with currentOccupants := co, updatedAt := env.now } = true := by
    simp only [mongooseValid, Bool.and_eq_true, decide_eq_true_eq] at hm ⊢
    exact ⟨⟨⟨⟨⟨⟨⟨⟨⟨hm.1.1.1.1.1.1.1.1.1, hm.1.1.1.1.1.1.1.1.2⟩, hm.1.1.1.1.1.1.1.2⟩,
      hm.1.1.1.1.1.1.2⟩, hm.1.1.1.1.1.2⟩, hm.1.1.1.1.2⟩, hco⟩, hm.1.1.2⟩, hm.1.2⟩, hm.2⟩
  have hshape : { applyBody share (occOnly co) none with updatedAt := env.now }
      = { share with currentOccupants := co, updatedAt := env.now } := rfl
  unfold updateHousingShare
  rw [hf]
  refine ⟨?_, by simp; omega, ?_⟩ <;>
    simp [occOnly, updateGenderOk, applyBody, hmerged, hsave, List.isEmpty]

/-- C3 (witness): the amended statement at the fixture listing
(`totalCapacity = 4`) with `currentOccupants = 5`. -/
theorem C3_amended_w :
    (updateHousingShare envAllOk 7 1 (occOnly 5) [] st1).1
      = Except.ok { share1 with currentOccupants := 5, updatedAt := envAllOk.now } ∧
    ¬ ({ share1 with currentOccupants := 5, updatedAt := envAllOk.now }).totalCapacity
        > ({ share1 with currentOccupants := 5, updatedAt := envAllOk.now }).currentOccupants ∧
    (updateHousingShare envAllOk 7 1 (occOnly 5) [] st1).2.1.records
      = replaceShare st1.records { share1 with currentOccupants := 5, updatedAt := envAllOk.now } :=
  C3_amended envAllOk 7 1 5 st1 share1 rfl (by decide) (by decide) (by decide) rfl

/-- C5 (counterexample): delete of the fixture listing where the destroy of
its only photo fails.  The claim says the record's removal is persisted
FIRST with media release afterwards, and that the caller's success result
carries a non-empty warning list describing the failed deletion.  In the
code the media release runs BEFORE the record removal (the trace shows a
destroy before the removal), and the response is the fixed
`{status: 'success', message: ...}` — identical to the response when every
destroy succeeds, hence carrying no warning information at all. -/
theorem C5_cex :
    (deleteHousingShare envDestroyFail 7 1 st1).1
      = Except.ok ⟨"success", "Housing share deleted successfully"⟩ ∧
    (deleteHousingShare envDestroyFail 7 1 st1).1 = (deleteHousingShare envAllOk 7 1 st1).1 ∧
    noDestroyBeforeRemoval (deleteHousingShare envDestroyFail 7 1 st1).2.2 = false :=
  ⟨rfl, rfl, rfl⟩

/-- C5 (amended): delete by the owner attempts the best-effort media release
FIRST (failures are swallowed and abort the rest of the photo batch only),
then persists the record's removal; the record is gone afterwards in every
case, and the caller receives the fixed success acknowledgment, which
carries NO warning list (its shape has only `status` and `message`). -/
theorem C5_amended (env : Env) (caller id : Nat) (s : St) (share : Share)
    (hf : findShare s id caller = some share)
    (hsave : env.saveOk = true) :
    (deleteHousingShare env caller id s).1
      = Except.ok ⟨"success", "Housing share deleted successfully"⟩ ∧
    (deleteHousingShare env caller id s).2.1.records.all (fun r => r.id != id) = true ∧
    (deleteHousingShare env caller id s).2.2
      = Event.findOne id :: ((deletePhotos env share.photos s).2.2 ++ [Event.removeRecord id]) ∧
    allDestroys (deletePhotos env share.photos s).2.2 = true := by
  obtain ⟨hid, -⟩ := findShare_props hf
  unfold deleteHousingShare
  rw [hf, hsave]
  refine ⟨rfl, ?_, rfl, deletePhotos_trace_destroys env share.photos s⟩
  show ((deletePhotos env share.photos s).2.1.records.filter
      (fun x => x.id != share.id)).all (fun r => r.id != id) = true
  rw [deletePhotos_records]
  subst hid
  exact List.all_eq_true.mpr (fun r hr => (List.mem_filter.mp hr).2)

/-- C5 (witness): the amended statement at the fixture listing whose only
photo's destroy fails. -/
theorem C5_amended_w :
    (deleteHousingShare envDestroyFail 7 1 st1).1
      = Except.ok ⟨"success", "Housing share deleted successfully"⟩ ∧
    (deleteHousingShare envDestroyFail 7 1 st1).2.1.records.all (fun r => r.id != 1) = true ∧
    (deleteHousingShare envDestroyFail 7 1 st1).2.2
      = Event.findOne 1 :: ((deletePhotos envDestroyFail share1.photos st1).2.2
          ++ [Event.removeRecord 1]) ∧
    allDestroys (deletePhotos envDestroyFail share1.photos st1).2.2 = true :=
  C5_amended envDestroyFail 7 1 st1 share1 rfl rfl

/-- C6 (counterexample): the listing is owned by student 7; an update by the
owner whose body carries `student: 99` (which `mongo-sanitize` does not
strip and `Object.assign` copies) persists a record owned by 99 — the owner
reference is NOT immutable. -/
theorem C6_cex :
    share1.student = 7 ∧
    (updateHousingShare envAllOk 7 1 studentOnlyBody [] st1).1
      = Except.ok { share1 with student := 99, updatedAt := 9 } ∧
    (updateHousingShare envAllOk 7 1 studentOnlyBody [] st1).2.1.records
      = [{ share1 with student := 99, updatedAt := 9 }] :=
  ⟨rfl, rfl, rfl⟩

/-- C6 (amended): the owner reference is preserved by every update whose body
does NOT supply a `student` field: any successful update then returns (and
persists) a record still owned by the caller, who by the ownership-scoped
lookup is the pre-update owner.  (A body-supplied `student` overrides it —
see the counterexample.) -/
theorem C6_amended (env : Env) (caller id : Nat) (b : Body) (files : List String) (s : St)
    (r : Share)
    (hb : b.student = none)
    (h : (updateHousingShare env caller id b files s).1 = Except.ok r) :
    r.student = caller := by
  unfold updateHousingShare at h
  cases hfs : findShare s id caller with
  | none => rw [hfs] at h; simp at h
  | some share =>
      rw [hfs] at h
      obtain ⟨-, hstud⟩ := findShare_props hfs
      dsimp only at h
      repeat' split at h
      all_goals first
        | (exfalso; simp at h; done)
        | (injection h with h; subst h; simp [applyBody, hb, hstud])

/-- C6 (witness): an empty-body update of the fixture listing by its owner
(student 7) keeps the owner at 7. -/
theorem C6_amended_w :
    ({ share1 with updatedAt := 9 } : Share).student = 7 :=
  C6_amended envAllOk 7 1 emptyBody [] st1 { share1 with updatedAt := 9 } rfl rfl

/-- C10 (confirmed): `new HousingShare({...req.body, student: req.user.userId,
photos})` overwrites any body-supplied owner, so every successful create
persists a record owned by the authenticated caller, whatever identity the
request body tried to supply. -/
theorem C10_owner_is_caller (env : Env) (caller : Nat) (b : Body) (files : List String)
    (newId : Nat) (s : St) (r : Share)
    (h : (createHousingShare env caller b files newId s).1 = Except.ok r) :
    r.student = caller := by
  unfold createHousingShare at h
  dsimp only at h
  repeat' split at h
  all_goals first
    | (exfalso; simp at h; done)
    | (injection h with h; subst h; rfl)

/-- C10 (witness): a create by caller 7 whose body maliciously supplies
`student: 99` persists `student = 7`. -/
theorem C10_w :
    (createHousingShare envAllOk 7 validBody [] 1 st0).1
      = Except.ok (buildShare 7 validBody [] 1 9) ∧
    (buildShare 7 validBody [] 1 9).student = 7 ∧
    validBody.student = some 99 :=
  ⟨rfl, C10_owner_is_caller envAllOk 7 validBody [] 1 st0 (buildShare 7 validBody [] 1 9) rfl, rfl⟩

/-- C9 (witness): the mixed cases — `page = 0` with an in-range `limit = 10`
is clamped to page 1 keeping limit 10, an in-range `page = 3` with `limit =
101` keeps page 3 while the limit resets to 10, and `currentPage` equals the
clamped page. -/
theorem C9_w :
    (validatePagination qMixedA.page qMixedA.limit).1 = 1 ∧
    (validatePagination qMixedA.page qMixedA.limit).2 = 10 ∧
    (validatePagination qMixedB.page qMixedB.limit).1 = 3 ∧
    (validatePagination qMixedB.page qMixedB.limit).2 = 10 ∧
    (getHousingShares qMixedA st0).1.currentPage
      = (validatePagination qMixedA.page qMixedA.limit).1 :=
  ⟨(C9_pagination_clamped qMixedA st0).2.1 (Or.inr ⟨0, rfl, by decide⟩),
   (C9_pagination_clamped qMixedA st0).2.2.2.2 10 rfl (by decide) (by decide),
   (C9_pagination_clamped qMixedB st0).2.2.2.1 3 rfl (by decide),
   (C9_pagination_clamped qMixedB st0).2.2.1 (Or.inr ⟨101, rfl, by decide⟩),
   (C9_pagination_clamped qMixedA st0).1⟩

end Kre
